import Mathlib

/-!
Verification of the AI-Debate-Arena repository: a shallow embedding of the
response parsers (`reasoning_techniques.py`), the LLM agent wrapper
(`agents.py`) and the debate orchestrator (`debate_manager.py`), together
with theorems settling the specification claims.

The external completion service (the Groq chat API) is modelled as an
abstract function from (system prompt, user prompt, max tokens) to either a
successful completion or an error message; every theorem quantifies over it.
Python strings are modelled as Lean `String`; Python `str.split(sep)`,
`str.strip()`, `str.startswith`, `'\n'.join` and the `in` substring test are
given explicit structurally-recursive definitions below (so that concrete
inputs evaluate inside the kernel), and dictionaries whose keys are
statically known are structures with `Option` fields for keys that may be
absent.
-/

/-- Python whitespace characters recognised by `str.strip()`. -/
def pyWS (c : Char) : Bool :=
  c = ' ' || c = '\t' || c = '\n' || c = '\r' || c = '\x0b' || c = '\x0c'

/-- Python `str.strip()`: drop leading and trailing whitespace. -/
def pyStrip (s : String) : String :=
  ⟨((s.data.dropWhile pyWS).reverse.dropWhile pyWS).reverse⟩

/-- Substring occurrence on character lists (Python `sub in s`). -/
def containsSub (sub : List Char) : List Char → Bool
  | [] => sub.isEmpty
  | c :: rest => sub.isPrefixOf (c :: rest) || containsSub sub rest

/-- Python's substring test `sub in s`. -/
def pyIn (sub s : String) : Bool :=
  containsSub sub.data s.data

/-- Python `s.startswith(pre)`. -/
def pyStartswith (pre s : String) : Bool :=
  pre.data.isPrefixOf s.data

/-- Python `s[n:]` (slicing by code points). -/
def pyDrop (s : String) (n : Nat) : String :=
  ⟨s.data.drop n⟩

/-- Python `sep.join(xs)`. -/
def joinSep (sep : String) : List String → String
  | [] => ""
  | [x] => x
  | x :: y :: xs => x ++ sep ++ joinSep sep (y :: xs)

/-- Python `'\n'.join(lines)`. -/
def joinLines (lines : List String) : String :=
  joinSep "\n" lines

/-- Worker for `pySplit`: `fuel` bounds the recursion (one unit per consumed
character, so `l.length` always suffices); `acc` holds the current piece in
reverse. -/
def pySplitAux (sep : List Char) : Nat → List Char → List Char → List (List Char)
  | _, [], acc => [acc.reverse]
  | 0, l, acc => [acc.reverse ++ l]
  | fuel + 1, c :: rest, acc =>
    if sep.isPrefixOf (c :: rest) then
      acc.reverse :: pySplitAux sep fuel (List.drop sep.length (c :: rest)) []
    else
      pySplitAux sep fuel rest (c :: acc)

/-- Python `s.split(sep)` for a non-empty separator. -/
def pySplit (s sep : String) : List String :=
  (pySplitAux sep.data s.data.length s.data []).map (fun l => ⟨l⟩)

/-- Python `line.split(marker)[1].strip()` (total rendering; the callers
only use it under a `pyIn marker line` guard, where the index is valid). -/
def pySplitGet1 (line marker : String) : String :=
  pyStrip ((pySplit line marker).getD 1 "")

/-! ## `reasoning_techniques.py`: ChainOfThoughtPrompter -/

/-- The prefix markers of `ChainOfThoughtPrompter.extract_reasoning_steps`. -/
def cotMarkers : List String :=
  ["1.", "2.", "3.", "4.", "5.", "First", "Second", "Third", "Finally"]

/-- `line.strip().startswith(('1.', ..., 'Finally'))`. -/
def isCotMarker (line : String) : Bool :=
  cotMarkers.any (fun m => pyStartswith m (pyStrip line))

/-- The `for line in lines` loop of `extract_reasoning_steps`, with the
`steps` and `current_step` accumulators made explicit, including the final
flush of a non-empty `current_step`. -/
def cotLoop : List String → List String → List String → List String
  | [], steps, currentStep =>
    if currentStep ≠ [] then steps ++ [pyStrip (joinLines currentStep)] else steps
  | line :: rest, steps, currentStep =>
    if isCotMarker line then
      cotLoop rest
        (if currentStep ≠ [] then steps ++ [pyStrip (joinLines currentStep)] else steps)
        [line]
    else
      cotLoop rest steps (currentStep ++ [line])

/-- `ChainOfThoughtPrompter.extract_reasoning_steps`. -/
def extract_reasoning_steps (response : String) : List String :=
  (cotLoop (pySplit response "\n") [] []).filter (fun step => pyStrip step ≠ "")

/-! ## `reasoning_techniques.py`: ReActAgent -/

/-- One ReAct cycle dictionary: each key of the Python dict is present iff
the corresponding field is `some`. -/
structure ReactCycle where
  thought : Option String := none
  action : Option String := none
  observation : Option String := none
  reasoning : Option String := none
deriving Repr, DecidableEq

/-- Python truthiness of the `current_cycle` dict (`if current_cycle:`). -/
def ReactCycle.isEmptyDict (c : ReactCycle) : Bool :=
  c.thought.isNone && c.action.isNone && c.observation.isNone && c.reasoning.isNone

/-- The `for line in lines` loop of `ReActAgent.parse_react_cycle`, with the
`cycles` and `current_cycle` accumulators explicit, including the final
flush of a non-empty `current_cycle`. -/
def reactLoop : List String → List ReactCycle → ReactCycle → List ReactCycle
  | [], cycles, cur =>
    if cur.isEmptyDict then cycles else cycles ++ [cur]
  | line :: rest, cycles, cur =>
    if pyIn "THOUGHT:" line then
      reactLoop rest (if cur.isEmptyDict then cycles else cycles ++ [cur])
        { thought := some (pySplitGet1 line "THOUGHT:") }
    else if pyIn "ACTION:" line then
      reactLoop rest cycles { cur with action := some (pySplitGet1 line "ACTION:") }
    else if pyIn "OBSERVATION:" line then
      reactLoop rest cycles { cur with observation := some (pySplitGet1 line "OBSERVATION:") }
    else if pyIn "REASONING:" line then
      reactLoop rest cycles { cur with reasoning := some (pySplitGet1 line "REASONING:") }
    else
      reactLoop rest cycles cur

/-- `ReActAgent.parse_react_cycle`. -/
def parse_react_cycle (response : String) : List ReactCycle :=
  reactLoop (pySplit response "\n") [] {}

/-! ## `reasoning_techniques.py`: SelfCorrectionEngine -/

/-- The result dict of `SelfCorrectionEngine.extract_improvements`. -/
structure Improvements where
  weaknesses : List String
  valid_points : List String
  improved_argument : String
  confidence : Nat
deriving Repr, DecidableEq

/-- The initial `sections` dict of `extract_improvements`. -/
def initImprovements : Improvements :=
  { weaknesses := [], valid_points := [], improved_argument := "", confidence := 5 }

/-- The `current_section` variable of `extract_improvements`. -/
inductive ImpSection where
  | weaknesses
  | valid_points
  | improved_argument
  | confidence
deriving Repr, DecidableEq

/-- One iteration of the `for i, line in enumerate(lines)` loop of
`extract_improvements`: updates the `sections` dict and `current_section`. -/
def impStep (acc : Improvements × Option ImpSection) (line : String) :
    Improvements × Option ImpSection :=
  let (sections, cur) := acc
  if pyIn "IDENTIFIED WEAKNESSES" line then (sections, some .weaknesses)
  else if pyIn "VALID COUNTER-POINTS" line then (sections, some .valid_points)
  else if pyIn "IMPROVED ARGUMENT" line then (sections, some .improved_argument)
  else if pyIn "CONFIDENCE LEVEL" line then (sections, some .confidence)
  else
    match cur with
    | none => (sections, cur)
    | some sec =>
      if pyStrip line ≠ "" then
        match sec with
        | .weaknesses =>
          if pyStartswith "-" (pyStrip line) then
            ({ sections with weaknesses := sections.weaknesses ++ [pyDrop (pyStrip line) 2] }, cur)
          else (sections, cur)
        | .valid_points =>
          if pyStartswith "-" (pyStrip line) then
            ({ sections with valid_points := sections.valid_points ++ [pyDrop (pyStrip line) 2] }, cur)
          else (sections, cur)
        | .improved_argument =>
          ({ sections with improved_argument := sections.improved_argument ++ line ++ "\n" }, cur)
        | .confidence =>
          match (pyStrip line).data with
          | [] => (sections, cur)
          | c :: _ =>
            if c.isDigit then ({ sections with confidence := c.toNat - 48 }, cur)
            else (sections, cur)
      else (sections, cur)

/-- `extract_improvements` on an already-split list of lines. -/
def impsLines (lines : List String) : Improvements :=
  (lines.foldl impStep (initImprovements, none)).1

/-- `SelfCorrectionEngine.extract_improvements`. -/
def extract_improvements (critique_response : String) : Improvements :=
  impsLines (pySplit critique_response "\n")

/-! ## `reasoning_techniques.py`: prompt templates used by the agents -/

/-- `ChainOfThoughtPrompter.create_cot_prompt`. -/
def create_cot_prompt (task : String) (context : String) : String :=
  "You are a critical thinker engaged in structured reasoning.\n\n" ++ context ++
  "\n\nTASK: " ++ task ++
  "\n\nINSTRUCTIONS - Think step by step:\n1. **UNDERSTAND**: Analyze what is being asked\n2. **DECOMPOSE**: Break down the problem into smaller components\n3. **ANALYZE**: Examine each component carefully\n4. **SYNTHESIZE**: Connect the parts to form a coherent argument\n5. **CONCLUDE**: State your final position clearly\n\nShow your thinking process explicitly. Use phrases like:\n- \"First, I notice that...\"\n- \"This suggests that...\"\n- \"Therefore, I conclude that...\"\n\nProvide your structured response below:"

/-- `ReActAgent.create_react_prompt`. -/
def create_react_prompt (task : String) (available_actions : List String) : String :=
  let actions_str := joinLines (available_actions.map (fun action => "- " ++ action))
  "You are an agent engaged in Reason-Act-Observe cycles.\n\nTASK: " ++ task ++
  "\n\nAVAILABLE ACTIONS:\n" ++ actions_str ++
  "\n\nCYCLE STRUCTURE (repeat as needed):\n1. THOUGHT: What do I need to understand next?\n2. ACTION: Which action should I take? (format: ACTION: [action name])\n3. OBSERVATION: What did I learn from this action?\n4. REASONING: How does this inform my argument?\n\nContinue cycling until you have sufficient evidence for a strong conclusion.\n\nFormat your response with clear THOUGHT, ACTION, OBSERVATION, REASONING blocks."

/-- `SelfCorrectionEngine.create_critique_prompt` (the `counter_argument`
truthiness test of the source treats both `None` and `""` as absent). -/
def create_critique_prompt (initial_response : String) (counter_argument : Option String) : String :=
  let counter_section :=
    match counter_argument with
    | none => ""
    | some c =>
      if c ≠ "" then
        "\nOPPONENT'S ARGUMENT:\n\"" ++ c ++ "\"\n\nHow strong are these counter-points? Where are the weaknesses?\n"
      else ""
  "SELF-CRITIQUE: Review and improve your argument\n\nYOUR INITIAL RESPONSE:\n\"" ++ initial_response ++
  "\"\n\n" ++ counter_section ++
  "\n\nCRITICAL ANALYSIS:\n1. What are the LOGICAL WEAKNESSES in my response?\n2. What ASSUMPTIONS am I making?\n3. What EVIDENCE am I missing?\n4. What FALLACIES might I be committing?\n5. How could an INTELLIGENT CRITIC attack this argument?\n\nREFINEMENT:\nBased on this critique, provide an IMPROVED version that:\n- Addresses identified weaknesses\n- Provides stronger evidence\n- Acknowledges valid counter-points\n- Uses more rigorous logic\n\nFORMAT:\n=== IDENTIFIED WEAKNESSES ===\n[list weaknesses]\n\n=== VALID COUNTER-POINTS ===\n[acknowledge what's valid]\n\n=== IMPROVED ARGUMENT ===\n[refined response]\n\n=== CONFIDENCE LEVEL ===\n[1-10 score for improved argument]"

/-! ## `agents.py`: the completion-service boundary and the agents -/

/-- A successful reply of the external completion service
(`response.choices[0].message.content` plus the usage counters). -/
structure GroqResp where
  content : String
  prompt_tokens : Nat
  completion_tokens : Nat
deriving Repr, DecidableEq

/-- The external completion service: from (system prompt, user prompt,
max tokens) to a reply or a raised error, modelled as `Except`.  Every
theorem below quantifies over it. -/
abbrev Service := String → String → Nat → Except String GroqResp

/-- The response dict built by `LLMAgent.think` / `LLMAgent._groq_think`,
with the extra keys the higher-level agent methods may add; a key absent
from the Python dict is `none`. -/
structure Resp where
  response : String
  error : Bool := false
  api_type : Option String := none
  usage : Option (Nat × Nat) := none
  reasoning_technique : Option String := none
  reasoning_steps : Option (List String) := none
  react_cycles : Option (List ReactCycle) := none
  fairness_assessment : Option Improvements := none
deriving Repr, DecidableEq

/-- The `system_prompt` string built inside `LLMAgent.think`. -/
def systemPromptOf (name role : String) : String :=
  "You are " ++ name ++ ", " ++ role ++
  ".\nYour task is to think through your response step by step:\n1. Analyze the question/statement\n2. Identify key points to address\n3. Generate your argument with logical flow\n4. Review and refine your position\n\nBe clear about your reasoning process."

/-- `LLMAgent.think`: calls `_groq_think`; any exception of the service is
caught and converted into an error-flagged result dict. -/
def LLMAgent.think (service : Service) (name role : String) (prompt : String)
    (max_tokens : Nat) : Resp :=
  match service (systemPromptOf name role) prompt max_tokens with
  | .ok g =>
    { response := g.content, api_type := some "groq",
      usage := some (g.prompt_tokens, g.completion_tokens) }
  | .error e => { response := "Error: " ++ e, error := true }

/-- The role string a `DebateAgent` is constructed with. -/
def DebateAgent.roleOf (position : String) : String :=
  "a debate agent defending the position: " ++ position

/-- `DebateAgent.opening_statement`. -/
def DebateAgent.opening_statement (service : Service) (name position topic : String) : Resp :=
  let cot_prompt := create_cot_prompt
    ("Debate Topic: " ++ topic ++ "\nYour Position: " ++ position ++
     "\n\nProvide a compelling opening statement that:\n1. Clearly states your viewpoint\n2. Provides 2-3 key arguments\n3. Uses evidence or logical reasoning\n4. Sets a strong foundation for debate")
    "You are participating in a structured debate."
  let response := LLMAgent.think service name (DebateAgent.roleOf position) cot_prompt 1000
  { response with
    reasoning_technique := some "Chain of Thought",
    reasoning_steps := some (extract_reasoning_steps response.response) }

/-- `DebateAgent.respond_to_opponent`. -/
def DebateAgent.respond_to_opponent (service : Service)
    (name position opponent_argument topic : String) : Resp :=
  let react_prompt := create_react_prompt
    ("Your opponent just argued:\n\"" ++ opponent_argument ++ "\"\n\nDebate Topic: " ++ topic ++
     "\nYour Position: " ++ position ++
     "\n\nGenerate a strong rebuttal that addresses their points and strengthens your position.\nUse the Reason-Act-Observe cycle to structure your thinking.")
    ["Analyze opponent's logical structure", "Identify fallacies or weak points",
     "Provide counter-evidence", "State your refined position"]
  let response := LLMAgent.think service name (DebateAgent.roleOf position) react_prompt 800
  { response with
    reasoning_technique := some "ReAct",
    react_cycles := some (parse_react_cycle response.response) }

/-- The role string of the `ModeratorAgent`. -/
def ModeratorAgent.roleStr : String :=
  "a neutral debate moderator and analyst"

/-- `ModeratorAgent.analyze_round`. -/
def ModeratorAgent.analyze_round (service : Service)
    (agent_a_argument agent_b_argument topic : String) : Resp :=
  let cot_prompt := create_cot_prompt
    ("Analyze this debate round objectively:\n\nDEBATE TOPIC: " ++ topic ++
     "\n\nAGENT A'S ARGUMENT:\n\"" ++ agent_a_argument ++
     "\"\n\nAGENT B'S ARGUMENT:\n\"" ++ agent_b_argument ++
     "\"\n\nANALYSIS STEPS:\n1. Identify the core claim of each agent\n2. Evaluate the strength of evidence presented\n3. Spot logical fallacies or weak reasoning\n4. Score each argument (Clarity: 0-10, Logic: 0-10, Evidence: 0-10)\n5. Provide a balanced assessment\n\nBe impartial and fair to both sides.")
    "You are a neutral moderator analyzing debate quality."
  let response := LLMAgent.think service "Moderator" ModeratorAgent.roleStr cot_prompt 800
  { response with
    reasoning_technique := some "Chain of Thought",
    reasoning_steps := some (extract_reasoning_steps response.response) }

/-- `ModeratorAgent.final_conclusion`. -/
def ModeratorAgent.final_conclusion (service : Service) (all_arguments : List String)
    (topic : String) : Resp :=
  let arguments_text := joinSep "\n\n"
    ((all_arguments.enum).map (fun p => "Round " ++ Nat.repr (p.1 + 1) ++ ": " ++ p.2))
  let react_prompt := create_react_prompt
    ("Debate Topic: " ++ topic ++ "\n\nAll arguments presented throughout the debate:\n" ++
     arguments_text ++
     "\n\nYour task: Provide a comprehensive, balanced final conclusion that:\n1. Summarizes strongest arguments from both sides\n2. Identifies areas of agreement\n3. Acknowledges validity of different perspectives\n4. Provides nuanced synthesis\n5. Suggests areas for further exploration\n\nUse the Reason-Act-Observe cycle for rigorous analysis.")
    ["Identify common ground", "Evaluate argument quality", "Recognize valid perspectives",
     "Synthesize evidence", "Form balanced conclusion"]
  let response := LLMAgent.think service "Moderator" ModeratorAgent.roleStr react_prompt 1200
  { response with
    reasoning_technique := some "ReAct",
    react_cycles := some (parse_react_cycle response.response) }

/-- `ModeratorAgent.evaluate_debate_quality`. -/
def ModeratorAgent.evaluate_debate_quality (service : Service)
    (debate_transcript topic : String) : Resp :=
  let reflection_prompt :=
    "DEBATE QUALITY EVALUATION\n\nTOPIC: " ++ topic ++ "\n\nDEBATE TRANSCRIPT:\n" ++
    debate_transcript ++
    "\n\nEVALUATION CRITERIA:\n1. Argument Quality: How well-structured and logical?\n2. Evidence Use: How effectively is evidence used?\n3. Logical Fallacies: How many fallacies were present?\n4. Engagement: Did agents address opponent's points?\n5. Neutrality: Was the moderator fair?\n6. Overall Value: Did the debate illuminate the topic?\n\nProvide scores (1-10) and constructive feedback for improvement."
  let response := LLMAgent.think service "Moderator" ModeratorAgent.roleStr reflection_prompt 1000
  { response with reasoning_technique := some "Reflective Thinking" }

/-- `ModeratorAgent.critique_debate_fairness`. -/
def ModeratorAgent.critique_debate_fairness (service : Service)
    (agent_a_args agent_b_args : List String) : Resp :=
  let agent_a_text := joinLines agent_a_args
  let agent_b_text := joinLines agent_b_args
  let critique_prompt := create_critique_prompt
    ("MODERATOR FAIRNESS CHECK\n\nAGENT A'S ARGUMENTS:\n" ++ agent_a_text ++
     "\n\nAGENT B'S ARGUMENTS:\n" ++ agent_b_text ++
     "\n\nSELF-CRITIQUE:\n1. Have I been fair to both sides?\n2. Which side did I favor (if any)?\n3. What strengths did I miss in each argument?\n4. Am I being biased toward any position?\n5. How can I provide more balanced analysis?")
    none
  let response := LLMAgent.think service "Moderator" ModeratorAgent.roleStr critique_prompt 1000
  { response with
    reasoning_technique := some "Self-Correction",
    fairness_assessment := some (extract_improvements response.response) }

/-! ## `debate_manager.py`: the orchestrator -/

/-- One entry of `self.debate_history`. -/
structure HistoryEntry where
  agent : String
  type : String
  content : String
  raw_response : Resp
  api_type : String
deriving Repr, DecidableEq

/-- The state of a `DebateManager` instance. -/
structure DebateManager where
  topic : String
  agent_a_position : String
  agent_b_position : String
  debate_history : List HistoryEntry
  round_analyses : List Resp
  final_conclusion : Option Resp
deriving Repr, DecidableEq

/-- `DebateManager.__init__`. -/
def mkDebateManager (topic agent_a_position agent_b_position : String) : DebateManager :=
  { topic, agent_a_position, agent_b_position,
    debate_history := [], round_analyses := [], final_conclusion := none }

/-- The results dict of `start_debate`. -/
structure StartResults where
  agent_a_opening : Option Resp
  agent_b_opening : Option Resp
  success : Bool
deriving Repr, DecidableEq

/-- `DebateManager.start_debate`: returns the results dict and the mutated
state. -/
def DebateManager.start_debate (service : Service) (st : DebateManager) :
    StartResults × DebateManager :=
  let agent_a_response := DebateAgent.opening_statement service "Agent A" st.agent_a_position st.topic
  let hist1 := st.debate_history ++
    [{ agent := "Agent A", type := "opening", content := agent_a_response.response,
       raw_response := agent_a_response, api_type := agent_a_response.api_type.getD "gpt" }]
  let agent_b_response := DebateAgent.opening_statement service "Agent B" st.agent_b_position st.topic
  let hist2 := hist1 ++
    [{ agent := "Agent B", type := "opening", content := agent_b_response.response,
       raw_response := agent_b_response, api_type := agent_b_response.api_type.getD "gemini" }]
  ({ agent_a_opening := some agent_a_response, agent_b_opening := some agent_b_response,
     success := true },
   { st with debate_history := hist2 })

/-- `self.debate_history[-1]["content"] if self.debate_history else ""`
(line 79 of `debate_manager.py`). -/
def agentBLastArg (hist : List HistoryEntry) : String :=
  match hist.getLast? with
  | some e => e.content
  | none => ""

/-- `self.debate_history[-2]["content"] if len(self.debate_history) > 1 else ""`
(line 80 of `debate_manager.py`; computed but never used afterwards). -/
def agentALastArg (hist : List HistoryEntry) : String :=
  if hist.length > 1 then ((hist[hist.length - 2]?).map (fun e => e.content)).getD ""
  else ""

/-- The results dict of `execute_round`. -/
structure RoundResults where
  round : Nat
  agent_a_rebuttal : Option Resp
  agent_b_rebuttal : Option Resp
  moderator_analysis : Option Resp
  success : Bool
deriving Repr, DecidableEq

/-- `DebateManager.execute_round`: returns the results dict and the mutated
state.  The moderator analysis is placed in the results dict only; it is
not appended to `debate_history`. -/
def DebateManager.execute_round (service : Service) (st : DebateManager)
    (round_number : Nat) : RoundResults × DebateManager :=
  let agent_b_last_arg := agentBLastArg st.debate_history
  let agent_a_last_arg := agentALastArg st.debate_history
  let agent_a_rebuttal :=
    DebateAgent.respond_to_opponent service "Agent A" st.agent_a_position agent_b_last_arg st.topic
  let hist1 := st.debate_history ++
    [{ agent := "Agent A", type := "rebuttal_round_" ++ Nat.repr round_number,
       content := agent_a_rebuttal.response, raw_response := agent_a_rebuttal,
       api_type := agent_a_rebuttal.api_type.getD "gpt" }]
  let agent_b_rebuttal :=
    DebateAgent.respond_to_opponent service "Agent B" st.agent_b_position agent_a_rebuttal.response st.topic
  let hist2 := hist1 ++
    [{ agent := "Agent B", type := "rebuttal_round_" ++ Nat.repr round_number,
       content := agent_b_rebuttal.response, raw_response := agent_b_rebuttal,
       api_type := agent_b_rebuttal.api_type.getD "gemini" }]
  let analysis :=
    ModeratorAgent.analyze_round service agent_a_rebuttal.response agent_b_rebuttal.response st.topic
  ({ round := round_number, agent_a_rebuttal := some agent_a_rebuttal,
     agent_b_rebuttal := some agent_b_rebuttal, moderator_analysis := some analysis,
     success := true },
   { st with debate_history := hist2 })

/-- `'='*80`. -/
def eqBanner : String := ⟨List.replicate 80 '='⟩

/-- `'-'*40`. -/
def dashBanner : String := ⟨List.replicate 40 '-'⟩

/-- Python `str.upper()`. -/
def pyUpper (s : String) : String := ⟨s.data.map Char.toUpper⟩

/-- The header block of `get_debate_transcript` (everything before the turn
loop). -/
def transcriptHeader (st : DebateManager) : String :=
  "\n" ++ eqBanner ++ "\nDEBATE TRANSCRIPT\n" ++ eqBanner ++ "\n\nTOPIC: " ++ st.topic ++
  "\n\nAgent A Position: " ++ st.agent_a_position ++ "\nAgent B Position: " ++
  st.agent_b_position ++ "\n\n" ++ eqBanner ++ "\n\n"

/-- The `for i, msg in enumerate(self.debate_history, 1)` rendering loop of
`get_debate_transcript`. -/
def renderTurns : List HistoryEntry → Nat → String
  | [], _ => ""
  | e :: rest, i =>
    "\n[" ++ Nat.repr i ++ "] " ++ e.agent ++ " - " ++ pyUpper e.type ++ "\n" ++
    dashBanner ++ "\n" ++ e.content ++ "\n" ++ renderTurns rest (i + 1)

/-- The conclusion block of `get_debate_transcript` (present only when
`final_conclusion` is set). -/
def conclusionBlock (st : DebateManager) : String :=
  match st.final_conclusion with
  | some c =>
    "\n" ++ eqBanner ++ "\n" ++ "MODERATOR FINAL CONCLUSION\n" ++ eqBanner ++ "\n" ++
    c.response ++ "\n"
  | none => ""

/-- Everything `get_debate_transcript` emits before the trailing
generation-timestamp line. -/
def transcriptBody (st : DebateManager) : String :=
  transcriptHeader st ++ renderTurns st.debate_history 1 ++ conclusionBlock st

/-- `DebateManager.get_debate_transcript`; the wall-clock reading
`datetime.now().strftime(...)` is the explicit parameter `now`. -/
def DebateManager.get_debate_transcript (st : DebateManager) (now : String) : String :=
  transcriptBody st ++ ("\n" ++ eqBanner ++ "\nGenerated: " ++ now ++ "\n")

/-- The results dict of `conclude_debate`. -/
structure ConcludeResults where
  conclusion : Resp
  quality_evaluation : Resp
  fairness_check : Resp
  success : Bool
deriving Repr, DecidableEq

/-- `DebateManager.conclude_debate`; `now` is the wall-clock reading used by
the transcript it renders for the quality evaluation. -/
def DebateManager.conclude_debate (service : Service) (st : DebateManager) (now : String) :
    ConcludeResults × DebateManager :=
  let all_arguments := st.debate_history.map (fun m => m.content)
  let conclusion := ModeratorAgent.final_conclusion service all_arguments st.topic
  let st1 := { st with final_conclusion := some conclusion }
  let transcript := st1.get_debate_transcript now
  let quality_eval := ModeratorAgent.evaluate_debate_quality service transcript st1.topic
  let agent_a_args := (st1.debate_history.filter (fun m => m.agent == "Agent A")).map (fun m => m.content)
  let agent_b_args := (st1.debate_history.filter (fun m => m.agent == "Agent B")).map (fun m => m.content)
  let fairness_check := ModeratorAgent.critique_debate_fairness service agent_a_args agent_b_args
  ({ conclusion := conclusion, quality_evaluation := quality_eval,
     fairness_check := fairness_check, success := true },
   st1)

/-- The summary dict of `get_debate_summary`. -/
structure DebateSummary where
  topic : String
  agent_a_position : String
  agent_b_position : String
  num_rounds : Nat
  total_messages : Nat
  conclusion_available : Bool
deriving Repr, DecidableEq

/-- `DebateManager.get_debate_summary`. -/
def DebateManager.get_debate_summary (st : DebateManager) : DebateSummary :=
  { topic := st.topic, agent_a_position := st.agent_a_position,
    agent_b_position := st.agent_b_position,
    num_rounds := (st.debate_history.filter (fun m => pyIn "rebuttal" m.type)).length,
    total_messages := st.debate_history.length,
    conclusion_available := st.final_conclusion.isSome }

/-! ## Helper lemmas about the Python string primitives -/

theorem dropWhile_dropWhile (p : α → Bool) (l : List α) :
    (l.dropWhile p).dropWhile p = l.dropWhile p := by
  induction l with
  | nil => rfl
  | cons a t ih =>
    by_cases h : p a
    · simp [List.dropWhile_cons, h, ih]
    · simp [List.dropWhile_cons, h]

theorem dropWhile_head_false {p : α → Bool} {l : List α} :
    ∀ {a t}, l.dropWhile p = a :: t → p a = false := by
  induction l with
  | nil => intro a t h; simp [List.dropWhile] at h
  | cons b l' ih =>
    intro a t h
    by_cases hb : p b
    · rw [List.dropWhile_cons, if_pos hb] at h; exact ih h
    · rw [List.dropWhile_cons, if_neg hb] at h
      obtain ⟨rfl, -⟩ := List.cons.inj h
      simpa using hb

theorem pyStrip_idem (s : String) : pyStrip (pyStrip s) = pyStrip s := by
  unfold pyStrip
  simp only []
  have h1 : ∀ d1 : List Char, d1 = s.data.dropWhile pyWS →
      ((d1.reverse.dropWhile pyWS).reverse).dropWhile pyWS =
        (d1.reverse.dropWhile pyWS).reverse := by
    intro d1 hd1
    cases hx : (d1.reverse.dropWhile pyWS).reverse with
    | nil => simp
    | cons a t =>
      obtain ⟨u, hu⟩ := List.dropWhile_suffix (l := d1.reverse) pyWS
      have hd : d1 = (d1.reverse.dropWhile pyWS).reverse ++ u.reverse := by
        have h2 := congrArg List.reverse hu
        simpa [List.reverse_append] using h2.symm
      have hda : s.data.dropWhile pyWS = a :: (t ++ u.reverse) := by
        rw [← hd1, hd, hx]; simp
      have hfa : pyWS a = false := dropWhile_head_false hda
      rw [List.dropWhile_cons, if_neg (by simp [hfa])]
  rw [h1 (s.data.dropWhile pyWS) rfl, List.reverse_reverse, dropWhile_dropWhile]

theorem pyStrip_empty : pyStrip "" = "" := rfl

/-! ## Lemmas about the parser loops -/

theorem reactLoop_no_marker (lines : List String) (cycles : List ReactCycle) (cur : ReactCycle)
    (h : ∀ l ∈ lines, pyIn "THOUGHT:" l = false ∧ pyIn "ACTION:" l = false ∧
      pyIn "OBSERVATION:" l = false ∧ pyIn "REASONING:" l = false) :
    reactLoop lines cycles cur = if cur.isEmptyDict then cycles else cycles ++ [cur] := by
  induction lines with
  | nil => rfl
  | cons l ls ih =>
    have hl := h l (List.mem_cons_self l ls)
    rw [reactLoop]
    simp only [hl.1, hl.2.1, hl.2.2.1, hl.2.2.2, if_false, Bool.false_eq_true]
    exact ih fun x hx => h x (List.mem_cons_of_mem l hx)

theorem foldl_impStep_none (lines : List String) (secs : Improvements)
    (h : ∀ l ∈ lines, pyIn "IDENTIFIED WEAKNESSES" l = false ∧
      pyIn "VALID COUNTER-POINTS" l = false ∧ pyIn "IMPROVED ARGUMENT" l = false ∧
      pyIn "CONFIDENCE LEVEL" l = false) :
    lines.foldl impStep (secs, none) = (secs, none) := by
  induction lines with
  | nil => rfl
  | cons l ls ih =>
    have hl := h l (List.mem_cons_self l ls)
    rw [List.foldl_cons]
    have hstep : impStep (secs, none) l = (secs, none) := by
      rw [impStep]
      simp [hl.1, hl.2.1, hl.2.2.1, hl.2.2.2]
    rw [hstep]
    exact ih fun x hx => h x (List.mem_cons_of_mem l hx)

theorem cotLoop_no_marker (lines : List String) (steps currentStep : List String)
    (h : ∀ l ∈ lines, isCotMarker l = false) :
    cotLoop lines steps currentStep =
      if currentStep ++ lines ≠ [] then
        steps ++ [pyStrip (joinLines (currentStep ++ lines))]
      else steps := by
  induction lines generalizing currentStep with
  | nil => rw [cotLoop]; simp
  | cons l ls ih =>
    have hl := h l (List.mem_cons_self l ls)
    rw [cotLoop]
    simp only [hl, Bool.false_eq_true, if_false]
    rw [ih (currentStep ++ [l]) fun x hx => h x (List.mem_cons_of_mem l hx)]
    simp

theorem cotLoop_append_steps (lines : List String) :
    ∀ steps currentStep : List String,
      cotLoop lines steps currentStep = steps ++ cotLoop lines [] currentStep := by
  induction lines with
  | nil =>
    intro steps currentStep
    rw [cotLoop, cotLoop]
    by_cases hc : currentStep = [] <;> simp [hc]
  | cons l ls ih =>
    intro steps currentStep
    rw [cotLoop, cotLoop]
    by_cases hm : isCotMarker l
    · simp only [hm, if_true]
      by_cases hc : currentStep = []
      · simp only [hc, ne_eq, not_true_eq_false, if_false]
        exact ih steps [l]
      · simp only [hc, ne_eq, not_false_eq_true, if_true]
        rw [ih (steps ++ [pyStrip (joinLines currentStep)]) [l],
          ih ([] ++ [pyStrip (joinLines currentStep)]) [l]]
        simp
    · simp only [hm, if_false]
      exact ih steps (currentStep ++ [l])

theorem cotLoop_accumulate (pre : List String) :
    ∀ (tail steps currentStep : List String), (∀ l ∈ pre, isCotMarker l = false) →
      cotLoop (pre ++ tail) steps currentStep = cotLoop tail steps (currentStep ++ pre) := by
  induction pre with
  | nil => intro tail steps currentStep _; simp
  | cons l pre' ih =>
    intro tail steps currentStep h
    have hl := h l (List.mem_cons_self l pre')
    rw [List.cons_append, cotLoop]
    simp only [hl, Bool.false_eq_true, if_false]
    rw [ih tail steps (currentStep ++ [l]) fun x hx => h x (List.mem_cons_of_mem l hx)]
    simp

/-- C3: total parsers and their degradation on marker-free input.  The
original claim is refuted by `c3_counterexample`: on a non-blank input with
no recognised step marker, Chain-of-Thought extraction returns the whole
stripped text as a single step, not an empty list. -/
theorem c3_counterexample :
    ((pySplit "hello" "\n").all fun l => !isCotMarker l) = true ∧
      extract_reasoning_steps "hello" = ["hello"] ∧
      extract_reasoning_steps "hello" ≠ ([] : List String) := by
  refine ⟨by decide, by decide, by decide⟩

/-- C3 (amended): every parser is a total Lean function; on input whose
lines carry none of the recognised markers, ReAct parsing returns the empty
list, Self-Correction extraction returns the all-default sections dict
(empty lists, empty improved argument, confidence 5), and Chain-of-Thought
extraction returns the empty list when the text is whitespace-only and
otherwise the single step consisting of the whole stripped text. -/
theorem c3_amended :
    (∀ s : String, (∀ l ∈ pySplit s "\n", pyIn "THOUGHT:" l = false ∧
        pyIn "ACTION:" l = false ∧ pyIn "OBSERVATION:" l = false ∧
        pyIn "REASONING:" l = false) →
      parse_react_cycle s = []) ∧
    (∀ s : String, (∀ l ∈ pySplit s "\n", pyIn "IDENTIFIED WEAKNESSES" l = false ∧
        pyIn "VALID COUNTER-POINTS" l = false ∧ pyIn "IMPROVED ARGUMENT" l = false ∧
        pyIn "CONFIDENCE LEVEL" l = false) →
      extract_improvements s = initImprovements) ∧
    (∀ s : String, (∀ l ∈ pySplit s "\n", isCotMarker l = false) →
      extract_reasoning_steps s =
        if pyStrip (joinLines (pySplit s "\n")) = "" then []
        else [pyStrip (joinLines (pySplit s "\n"))]) := by
  refine ⟨?_, ?_, ?_⟩
  · intro s h
    rw [parse_react_cycle, reactLoop_no_marker _ _ _ h]
    rfl
  · intro s h
    rw [extract_improvements, impsLines, foldl_impStep_none _ _ h]
  · intro s h
    rw [extract_reasoning_steps, cotLoop_no_marker _ _ _ h]
    cases hx : pySplit s "\n" with
    | nil => simp [joinLines, joinSep, pyStrip_empty]
    | cons l ls =>
      simp only [List.nil_append, ne_eq, reduceCtorEq, not_false_eq_true, if_true]
      rw [List.filter_cons]
      simp only [pyStrip_idem, List.filter_nil]
      by_cases hb : pyStrip (joinLines (l :: ls)) = "" <;> simp [hb]

/-- C6: the claim that lines preceding the first recognised marker are
dropped from the step list is refuted: on "preamble\n1. step one" the
pre-marker line "preamble" is itself returned as a step. -/
theorem c6_counterexample :
    isCotMarker "preamble" = false ∧ isCotMarker "1. step one" = true ∧
      "preamble" ∈ extract_reasoning_steps "preamble\n1. step one" := by
  refine ⟨by decide, by decide, by decide⟩

/-- C6 (amended): in Chain-of-Thought step extraction, the lines preceding
the first recognised marker line form an initial step of their own (kept in
the result unless whitespace-only, by the final blank-step filter), the
remaining lines are segmented independently, and every non-marker line is
appended to the current step. -/
theorem c6_amended (s : String)
    (hpre : (pySplit s "\n").takeWhile (fun l => !isCotMarker l) ≠ [])
    (hrest : (pySplit s "\n").dropWhile (fun l => !isCotMarker l) ≠ []) :
    extract_reasoning_steps s =
      (pyStrip (joinLines ((pySplit s "\n").takeWhile (fun l => !isCotMarker l))) ::
        cotLoop ((pySplit s "\n").dropWhile (fun l => !isCotMarker l)) [] []).filter
        (fun step => pyStrip step ≠ "") ∧
    (∀ (steps currentStep : List String) (l : String) (ls : List String),
      isCotMarker l = false →
        cotLoop (l :: ls) steps currentStep = cotLoop ls steps (currentStep ++ [l])) := by
  constructor
  · have hprenomark : ∀ l ∈ (pySplit s "\n").takeWhile (fun l => !isCotMarker l),
        isCotMarker l = false := by
      intro l hl
      have h2 := List.mem_takeWhile_imp hl
      simpa using h2
    obtain ⟨m, rest', hm⟩ : ∃ m rest',
        (pySplit s "\n").dropWhile (fun l => !isCotMarker l) = m :: rest' := by
      cases hx : (pySplit s "\n").dropWhile (fun l => !isCotMarker l) with
      | nil => exact absurd hx hrest
      | cons a b => exact ⟨a, b, rfl⟩
    have hmark : isCotMarker m = true := by
      have h2 := dropWhile_head_false hm
      simpa using h2
    rw [extract_reasoning_steps]
    conv_lhs =>
      rw [← List.takeWhile_append_dropWhile (p := fun l => !isCotMarker l) (l := pySplit s "\n")]
    rw [cotLoop_accumulate _ _ _ _ hprenomark, hm, cotLoop]
    simp only [List.nil_append, hmark, if_true, hpre, ne_eq, not_false_eq_true]
    rw [cotLoop_append_steps rest'
      [pyStrip (joinLines ((pySplit s "\n").takeWhile (fun l => !isCotMarker l)))] [m]]
    rw [show cotLoop (m :: rest') [] [] = cotLoop rest' [] [m] by
      rw [cotLoop]; simp [hmark]]
    simp
  · intro steps currentStep l ls h
    rw [cotLoop]
    simp [h]

/-- The thought field each `THOUGHT:` line of the input contributes, in
appearance order. -/
def thoughtsOf (lines : List String) : List (Option String) :=
  (lines.filter (fun l => pyIn "THOUGHT:" l)).map (fun l => some (pySplitGet1 l "THOUGHT:"))

theorem isEmptyDict_false_of_thought {cur : ReactCycle} {t : String}
    (h : cur.thought = some t) : cur.isEmptyDict = false := by
  simp [ReactCycle.isEmptyDict, h]

theorem reactLoop_after_thought (lines : List String) :
    ∀ (cycles : List ReactCycle) (cur : ReactCycle) (t : String), cur.thought = some t →
      (reactLoop lines cycles cur).map ReactCycle.thought =
        cycles.map ReactCycle.thought ++ some t :: thoughtsOf lines := by
  induction lines with
  | nil =>
    intro cycles cur t ht
    rw [reactLoop]
    simp [isEmptyDict_false_of_thought ht, thoughtsOf, ht]
  | cons l ls ih =>
    intro cycles cur t ht
    rw [reactLoop]
    by_cases hT : pyIn "THOUGHT:" l
    · simp only [hT, if_true, isEmptyDict_false_of_thought ht, Bool.false_eq_true, if_false]
      rw [ih (cycles ++ [cur]) _ (pySplitGet1 l "THOUGHT:") rfl]
      simp [thoughtsOf, List.filter_cons, hT, ht]
    · have hthoughts : thoughtsOf (l :: ls) = thoughtsOf ls := by
        simp only [Bool.not_eq_true] at hT
        simp [thoughtsOf, List.filter_cons, hT]
      simp only [hT, Bool.false_eq_true, if_false]
      by_cases hA : pyIn "ACTION:" l
      · simp only [hA, if_true]
        rw [ih cycles _ t (by simpa using ht), hthoughts]
      · simp only [hA, Bool.false_eq_true, if_false]
        by_cases hO : pyIn "OBSERVATION:" l
        · simp only [hO, if_true]
          rw [ih cycles _ t (by simpa using ht), hthoughts]
        · simp only [hO, Bool.false_eq_true, if_false]
          by_cases hR : pyIn "REASONING:" l
          · simp only [hR, if_true]
            rw [ih cycles _ t (by simpa using ht), hthoughts]
          · simp only [hR, Bool.false_eq_true, if_false]
            rw [ih cycles _ t ht, hthoughts]

theorem reactLoop_wellformed (lines : List String)
    (h : ∀ l ∈ lines.takeWhile (fun l => !(pyIn "THOUGHT:" l)),
      pyIn "ACTION:" l = false ∧ pyIn "OBSERVATION:" l = false ∧ pyIn "REASONING:" l = false) :
    (reactLoop lines [] {}).map ReactCycle.thought = thoughtsOf lines := by
  induction lines with
  | nil => rfl
  | cons l ls ih =>
    by_cases hT : pyIn "THOUGHT:" l
    · rw [reactLoop]
      simp only [hT, if_true]
      rw [show ReactCycle.isEmptyDict {} = true from rfl]
      simp only [if_true]
      rw [reactLoop_after_thought ls [] _ (pySplitGet1 l "THOUGHT:") rfl]
      simp [thoughtsOf, List.filter_cons, hT]
    · have htake : (l :: ls).takeWhile (fun l => !(pyIn "THOUGHT:" l)) =
          l :: ls.takeWhile (fun l => !(pyIn "THOUGHT:" l)) := by
        rw [List.takeWhile_cons]
        simp [hT]
      have hl := h l (by rw [htake]; exact List.mem_cons_self ..)
      rw [reactLoop]
      simp only [hT, Bool.false_eq_true, if_false, hl.1, hl.2.1, hl.2.2]
      have hrec := ih (fun x hx => h x (by rw [htake]; exact List.mem_cons_of_mem l hx))
      rw [hrec]
      simp only [Bool.not_eq_true] at hT
      simp [thoughtsOf, List.filter_cons, hT]

/-- C5: for input whose lines are well-formed ReAct output — no
`ACTION:`/`OBSERVATION:`/`REASONING:` marker line before the first
`THOUGHT:` line — parsing yields exactly one cycle record per line
containing `THOUGHT:`, whose thought fields are the per-line extractions in
appearance order; the concrete two-cycle input shows all four fields being
populated in appearance order. -/
theorem c5_react_one_cycle_per_thought (s : String)
    (hwf : ∀ l ∈ (pySplit s "\n").takeWhile (fun l => !(pyIn "THOUGHT:" l)),
      pyIn "ACTION:" l = false ∧ pyIn "OBSERVATION:" l = false ∧ pyIn "REASONING:" l = false)
    (hsome : ((pySplit s "\n").any fun l => pyIn "THOUGHT:" l) = true) :
    (parse_react_cycle s).map ReactCycle.thought = thoughtsOf (pySplit s "\n") ∧
    (parse_react_cycle s).length =
      ((pySplit s "\n").filter fun l => pyIn "THOUGHT:" l).length ∧
    parse_react_cycle "THOUGHT: a\nACTION: b\nOBSERVATION: c\nREASONING: d\nTHOUGHT: e\nACTION: f" =
      [{ thought := some "a", action := some "b", observation := some "c",
         reasoning := some "d" },
       { thought := some "e", action := some "f" }] := by
  have hmap : (parse_react_cycle s).map ReactCycle.thought = thoughtsOf (pySplit s "\n") :=
    reactLoop_wellformed _ hwf
  refine ⟨hmap, ?_, by decide⟩
  have hlen := congrArg List.length hmap
  simpa [thoughtsOf] using hlen

/-- The per-line confidence update performed inside the `CONFIDENCE LEVEL`
section of `extract_improvements`: the last non-empty line whose first
character is a digit wins. -/
def confStep (acc : Nat) (line : String) : Nat :=
  if pyStrip line ≠ "" then
    match (pyStrip line).data with
    | [] => acc
    | c :: _ => if c.isDigit then c.toNat - 48 else acc
  else acc

theorem impStep_confidence_eq (secs : Improvements) (l : String)
    (h : pyIn "IDENTIFIED WEAKNESSES" l = false ∧ pyIn "VALID COUNTER-POINTS" l = false ∧
      pyIn "IMPROVED ARGUMENT" l = false ∧ pyIn "CONFIDENCE LEVEL" l = false) :
    impStep (secs, some ImpSection.confidence) l =
      ({ secs with confidence := confStep secs.confidence l }, some ImpSection.confidence) := by
  rw [impStep]
  simp only [h.1, h.2.1, h.2.2.1, h.2.2.2, Bool.false_eq_true, if_false]
  by_cases hs : pyStrip l = ""
  · simp [confStep, hs]
  · simp only [confStep, hs, ne_eq, not_false_eq_true, if_true]
    cases hd : (pyStrip l).data with
    | nil => simp
    | cons c cs =>
      by_cases hdig : c.isDigit <;> simp [hdig]

theorem foldl_impStep_confidence (lines : List String) :
    ∀ secs : Improvements,
      (∀ l ∈ lines, pyIn "IDENTIFIED WEAKNESSES" l = false ∧
        pyIn "VALID COUNTER-POINTS" l = false ∧ pyIn "IMPROVED ARGUMENT" l = false ∧
        pyIn "CONFIDENCE LEVEL" l = false) →
      ((lines.foldl impStep (secs, some ImpSection.confidence)).1).confidence =
        lines.foldl confStep secs.confidence := by
  induction lines with
  | nil => intro secs _; rfl
  | cons l ls ih =>
    intro secs h
    rw [List.foldl_cons, List.foldl_cons, impStep_confidence_eq secs l (h l (List.mem_cons_self ..))]
    exact ih _ fun x hx => h x (List.mem_cons_of_mem l hx)

/-- C7: refutation of the first-line rule.  With the confidence section
lines "high" then "7", the claim predicts the default 5 (the first
non-empty line fails to parse), but the code keeps scanning and returns 7. -/
theorem c7_counterexample :
    (extract_improvements "=== CONFIDENCE LEVEL ===\nhigh\n7").confidence = 7 ∧
      (7 : Nat) ≠ 5 := by
  refine ⟨by decide, by decide⟩

/-- C7 (amended): inside the `CONFIDENCE LEVEL` section, every non-empty
line whose first character parses as a digit updates the confidence, so the
last such line wins and 5 is returned only when no line parses; the quoted
single-line examples still hold: "8/10" yields 8 and "high" yields 5. -/
theorem c7_amended :
    (∀ rest : List String,
      (∀ l ∈ rest, pyIn "IDENTIFIED WEAKNESSES" l = false ∧
        pyIn "VALID COUNTER-POINTS" l = false ∧ pyIn "IMPROVED ARGUMENT" l = false ∧
        pyIn "CONFIDENCE LEVEL" l = false) →
      (impsLines ("=== CONFIDENCE LEVEL ===" :: rest)).confidence = rest.foldl confStep 5) ∧
    (extract_improvements "=== CONFIDENCE LEVEL ===\n8/10").confidence = 8 ∧
    (extract_improvements "=== CONFIDENCE LEVEL ===\nhigh").confidence = 5 := by
  refine ⟨?_, by decide, by decide⟩
  intro rest h
  rw [impsLines, List.foldl_cons]
  rw [show impStep (initImprovements, none) "=== CONFIDENCE LEVEL ===" =
      (initImprovements, some ImpSection.confidence) by decide]
  exact foldl_impStep_confidence rest initImprovements h

theorem digit_sub_le (c : Char) (h : c.isDigit = true) : c.toNat - 48 ≤ 9 := by
  simp [Char.isDigit] at h
  obtain ⟨h1, h2⟩ := h
  have h5 : c.val.toNat ≤ 57 := by exact_mod_cast h2
  simp [Char.toNat]
  omega

theorem impStep_confidence_le (acc : Improvements × Option ImpSection) (l : String)
    (h : acc.1.confidence ≤ 9) : ((impStep acc l).1).confidence ≤ 9 := by
  obtain ⟨secs, cur⟩ := acc
  simp only [impStep]
  repeat' split
  all_goals first
    | exact h
    | (rename_i hdig; exact digit_sub_le _ hdig)

theorem foldl_impStep_le (lines : List String) :
    ∀ acc : Improvements × Option ImpSection, acc.1.confidence ≤ 9 →
      ((lines.foldl impStep acc).1).confidence ≤ 9 := by
  induction lines with
  | nil => intro acc h; exact h
  | cons l ls ih =>
    intro acc h
    rw [List.foldl_cons]
    exact ih _ (impStep_confidence_le acc l h)

/-- C8: refutation of the 1–10 range.  A confidence line whose first
character is the digit 0 yields confidence 0, outside the claimed interval. -/
theorem c8_counterexample :
    ¬ (1 ≤ (extract_improvements "=== CONFIDENCE LEVEL ===\n0/10").confidence ∧
       (extract_improvements "=== CONFIDENCE LEVEL ===\n0/10").confidence ≤ 10) := by
  decide

/-- C8 (amended): for every raw input text, the confidence field of the
Self-Correction extraction result is an integer between 0 and 9 inclusive
(the default is 5 and any update stores the value of one decimal digit). -/
theorem c8_amended (s : String) :
    0 ≤ (extract_improvements s).confidence ∧ (extract_improvements s).confidence ≤ 9 :=
  ⟨Nat.zero_le _, foldl_impStep_le _ _ (by decide)⟩

/-- C2: every exception of the completion service during a `think()` call
is caught: the wrapper returns a result dict whose error flag is true and
whose text payload is the "Error: " description, and (being a total Lean
function) never propagates an exception to its caller. -/
theorem c2_think_catches_service_errors (service : Service) (name role prompt : String)
    (max_tokens : Nat) (e : String)
    (h : service (systemPromptOf name role) prompt max_tokens = .error e) :
    LLMAgent.think service name role prompt max_tokens =
      { response := "Error: " ++ e, error := true } := by
  rw [LLMAgent.think, h]

/-- A completion service that always raises. -/
def errService : Service := fun _ _ _ => .error "rate limit exceeded"

/-- C2 witness: a concrete erroring service is converted into the
error-flagged result dict. -/
theorem c2_witness :
    LLMAgent.think errService "Agent A" "a role" "a prompt" 400 =
      { response := "Error: rate limit exceeded", error := true } :=
  c2_think_catches_service_errors errService "Agent A" "a role" "a prompt" 400
    "rate limit exceeded" rfl

/-- A completion service that always succeeds. -/
def constService : Service :=
  fun _ _ _ => .ok { content := "ok", prompt_tokens := 1, completion_tokens := 2 }

/-- C9: executing a round on an empty transcript raises nothing: the
opponent's-last-argument lookup and the (dead) own-last-argument lookup both
degenerate to the empty string (the latter whenever fewer than two entries
exist), and the round appends the two rebuttal entries computed from that
empty argument. -/
theorem c9_empty_history_no_error (service : Service) (st : DebateManager) (n : Nat)
    (h : st.debate_history = []) :
    agentBLastArg st.debate_history = "" ∧
    agentALastArg st.debate_history = "" ∧
    (∀ hist : List HistoryEntry, hist.length < 2 → agentALastArg hist = "") ∧
    (DebateManager.execute_round service st n).2.debate_history =
      (let ra := DebateAgent.respond_to_opponent service "Agent A" st.agent_a_position "" st.topic
       let rb := DebateAgent.respond_to_opponent service "Agent B" st.agent_b_position
         ra.response st.topic
       [{ agent := "Agent A", type := "rebuttal_round_" ++ Nat.repr n, content := ra.response,
          raw_response := ra, api_type := ra.api_type.getD "gpt" },
        { agent := "Agent B", type := "rebuttal_round_" ++ Nat.repr n, content := rb.response,
          raw_response := rb, api_type := rb.api_type.getD "gemini" }]) := by
  refine ⟨by rw [h]; rfl, by rw [h]; rfl, ?_, ?_⟩
  · intro hist hlen
    rw [agentALastArg, if_neg (by omega)]
  · simp [DebateManager.execute_round, h, agentBLastArg, agentALastArg]

/-- C9 witness: on a freshly constructed manager both last-argument lookups
are empty. -/
theorem c9_witness :
    agentBLastArg (mkDebateManager "topic" "pro" "con").debate_history = "" ∧
      agentALastArg (mkDebateManager "topic" "pro" "con").debate_history = "" :=
  ⟨(c9_empty_history_no_error constService (mkDebateManager "topic" "pro" "con") 1 rfl).1,
   (c9_empty_history_no_error constService (mkDebateManager "topic" "pro" "con") 1 rfl).2.1⟩

/-- The external driver's loop: one `execute_round` call per requested
round number, threading the manager state. -/
def foldRounds (service : Service) (st : DebateManager) (rounds : List Nat) : DebateManager :=
  rounds.foldl (fun s n => (DebateManager.execute_round service s n).2) st

theorem isPrefixOf_append_self (l t : List Char) : l.isPrefixOf (l ++ t) = true := by
  simp

theorem containsSub_of_isPrefixOf (sub l : List Char) (h : sub.isPrefixOf l = true) :
    containsSub sub l = true := by
  cases l with
  | nil =>
    cases sub with
    | nil => rfl
    | cons a as => simp at h
  | cons c rest =>
    rw [containsSub]
    simp [h]

theorem pyIn_rebuttal_round (n : Nat) :
    pyIn "rebuttal" ("rebuttal_round_" ++ Nat.repr n) = true := by
  rw [pyIn, String.data_append]
  rw [show ("rebuttal_round_" : String).data = ("rebuttal" : String).data ++
    ("_round_" : String).data by decide]
  rw [List.append_assoc]
  exact containsSub_of_isPrefixOf _ _ (isPrefixOf_append_self _ _)

theorem pyIn_rebuttal_opening : pyIn "rebuttal" "opening" = false := by decide

theorem execute_round_history (service : Service) (st : DebateManager) (n : Nat) :
    ((DebateManager.execute_round service st n).2).debate_history.length =
      st.debate_history.length + 2 ∧
    (((DebateManager.execute_round service st n).2).debate_history.filter
        fun m => pyIn "rebuttal" m.type).length =
      (st.debate_history.filter fun m => pyIn "rebuttal" m.type).length + 2 := by
  constructor
  · simp [DebateManager.execute_round]
  · simp [DebateManager.execute_round, List.filter_append, pyIn_rebuttal_round]

theorem foldRounds_counts (service : Service) (rounds : List Nat) :
    ∀ st : DebateManager,
      (foldRounds service st rounds).debate_history.length =
        st.debate_history.length + 2 * rounds.length ∧
      ((foldRounds service st rounds).debate_history.filter
          fun m => pyIn "rebuttal" m.type).length =
        (st.debate_history.filter fun m => pyIn "rebuttal" m.type).length +
          2 * rounds.length := by
  induction rounds with
  | nil => intro st; simp [foldRounds]
  | cons n ns ih =>
    intro st
    have h1 := execute_round_history service st n
    have h2 := ih ((DebateManager.execute_round service st n).2)
    have hfold : foldRounds service st (n :: ns) =
        foldRounds service ((DebateManager.execute_round service st n).2) ns := rfl
    rw [hfold]
    constructor
    · rw [h2.1, h1.1, List.length_cons]; ring
    · rw [h2.2, h1.2, List.length_cons]; ring

/-- C10: after `start()` and one `executeRound` per element of `rounds`,
the summary's `total_messages` is `2 + 2k` and its `num_rounds` field is
`2k` — it counts rebuttal messages (two per executed round), not the number
of rounds executed. -/
theorem c10_summary_counts (service : Service) (topic pA pB : String) (rounds : List Nat) :
    (DebateManager.get_debate_summary
      (foldRounds service ((DebateManager.start_debate service
        (mkDebateManager topic pA pB)).2) rounds)).total_messages = 2 + 2 * rounds.length ∧
    (DebateManager.get_debate_summary
      (foldRounds service ((DebateManager.start_debate service
        (mkDebateManager topic pA pB)).2) rounds)).num_rounds = 2 * rounds.length := by
  have hstart_len : ((DebateManager.start_debate service
      (mkDebateManager topic pA pB)).2).debate_history.length = 2 := by
    simp [DebateManager.start_debate, mkDebateManager]
  have hstart_reb : (((DebateManager.start_debate service
      (mkDebateManager topic pA pB)).2).debate_history.filter
        fun m => pyIn "rebuttal" m.type).length = 0 := by
    simp [DebateManager.start_debate, mkDebateManager, pyIn_rebuttal_opening]
  have h := foldRounds_counts service rounds
    ((DebateManager.start_debate service (mkDebateManager topic pA pB)).2)
  constructor
  · show (foldRounds service _ rounds).debate_history.length = 2 + 2 * rounds.length
    rw [h.1, hstart_len]
  · show ((foldRounds service _ rounds).debate_history.filter
      fun m => pyIn "rebuttal" m.type).length = 2 * rounds.length
    rw [h.2, hstart_reb]
    exact Nat.zero_add _

/-- C1: from a fresh session, `start()` then `executeRound(1)` leaves the
transcript with exactly the four turns [A opening, B opening, A rebuttal,
B rebuttal] in that order; the moderator's round analysis is computed and
placed in the returned results dict but never appended as a transcript
turn, and a subsequent `conclude()` leaves those four turns unchanged while
setting a non-null conclusion. -/
theorem c1_round_sequencing (service : Service) (topic pA pB now : String) :
    let st1 := (DebateManager.start_debate service (mkDebateManager topic pA pB)).2
    let step2 := DebateManager.execute_round service st1 1
    let ra := DebateAgent.opening_statement service "Agent A" pA topic
    let rb := DebateAgent.opening_statement service "Agent B" pB topic
    let rra := DebateAgent.respond_to_opponent service "Agent A" pA rb.response topic
    let rrb := DebateAgent.respond_to_opponent service "Agent B" pB rra.response topic
    (step2.2.debate_history.map fun e => (e.agent, e.type, e.content)) =
      [("Agent A", "opening", ra.response), ("Agent B", "opening", rb.response),
       ("Agent A", "rebuttal_round_1", rra.response),
       ("Agent B", "rebuttal_round_1", rrb.response)] ∧
    step2.1.moderator_analysis =
      some (ModeratorAgent.analyze_round service rra.response rrb.response topic) ∧
    (DebateManager.conclude_debate service step2.2 now).2.debate_history =
      step2.2.debate_history ∧
    (DebateManager.conclude_debate service step2.2 now).2.final_conclusion.isSome = true := by
  intro st1 step2 ra rb rra rrb
  refine ⟨?_, rfl, rfl, rfl⟩
  rfl

/-- C4: the rendered transcript is a pure function of (topic, positions,
ordered turns, conclusion): two sessions agreeing on those fields render
byte-identically except for the trailing generation-timestamp line. -/
theorem c4_transcript_deterministic (st1 st2 : DebateManager) (now1 now2 : String)
    (htopic : st1.topic = st2.topic)
    (hposA : st1.agent_a_position = st2.agent_a_position)
    (hposB : st1.agent_b_position = st2.agent_b_position)
    (hhist : st1.debate_history = st2.debate_history)
    (hconc : st1.final_conclusion = st2.final_conclusion) :
    st1.get_debate_transcript now1 =
      transcriptBody st1 ++ ("\n" ++ eqBanner ++ "\nGenerated: " ++ now1 ++ "\n") ∧
    st2.get_debate_transcript now2 =
      transcriptBody st2 ++ ("\n" ++ eqBanner ++ "\nGenerated: " ++ now2 ++ "\n") ∧
    transcriptBody st1 = transcriptBody st2 := by
  refine ⟨rfl, rfl, ?_⟩
  rw [transcriptBody, transcriptBody, transcriptHeader, transcriptHeader,
    conclusionBlock, conclusionBlock, htopic, hposA, hposB, hhist, hconc]

/-- A concrete one-turn session used by the C4 witness. -/
def dmW1 : DebateManager :=
  { topic := "T", agent_a_position := "Pro", agent_b_position := "Con",
    debate_history :=
      [{ agent := "Agent A", type := "opening", content := "hi",
         raw_response := { response := "hi" }, api_type := "groq" }],
    round_analyses := [], final_conclusion := none }

/-- The same session content with a different (transcript-irrelevant)
`round_analyses` list. -/
def dmW2 : DebateManager :=
  { dmW1 with round_analyses := [{ response := "analysis" }] }

/-- C4 witness: two concrete sessions with identical topic, positions,
turns and conclusion render the same body for different timestamps. -/
theorem c4_witness : transcriptBody dmW1 = transcriptBody dmW2 :=
  (c4_transcript_deterministic dmW1 dmW2 "2024-01-01 00:00:00" "2025-02-02 12:34:56"
    rfl rfl rfl rfl rfl).2.2

/-- C3 witness: a concrete marker-free input parses to the empty cycle
list. -/
theorem c3_witness : parse_react_cycle "just words\nnothing here" = [] :=
  c3_amended.1 "just words\nnothing here" (by decide)

/-- C5 witness: a concrete well-formed one-cycle input yields its thought
fields in appearance order. -/
theorem c5_witness :
    (parse_react_cycle "THOUGHT: x\nACTION: y").map ReactCycle.thought =
      thoughtsOf (pySplit "THOUGHT: x\nACTION: y" "\n") :=
  (c5_react_one_cycle_per_thought "THOUGHT: x\nACTION: y" (by decide) (by decide)).1

/-- C6 witness: a concrete input with a pre-marker line keeps that line as
the initial step of the decomposition. -/
theorem c6_witness :
    extract_reasoning_steps "intro\n1. one" =
      (pyStrip (joinLines ((pySplit "intro\n1. one" "\n").takeWhile fun l => !isCotMarker l)) ::
        cotLoop ((pySplit "intro\n1. one" "\n").dropWhile fun l => !isCotMarker l) [] []).filter
        (fun step => pyStrip step ≠ "") :=
  (c6_amended "intro\n1. one" (by decide) (by decide)).1

/-- C7 witness: a concrete two-line confidence section folds left to right,
so the later parsable line wins. -/
theorem c7_witness :
    (impsLines ("=== CONFIDENCE LEVEL ===" :: ["9", "2/10"])).confidence =
      ["9", "2/10"].foldl confStep 5 :=
  c7_amended.1 ["9", "2/10"] (by decide)
